import Mathlib

/-!
Shallow embedding of `db/types/base.py` from the mathesar repository:
the database type identity catalog (built-in `PostgresType` and
`MathesarCustomType` enums), the quirk classification sets, the engine
binding (native class lookup, reverse lookup, compiled SQL rendering)
and the availability resolver, together with theorems settling the
specification claims about them.

Python enums become Lean inductives; the enum value strings become
`value` functions; Python `frozenset` literals become lists with
decidable membership; the external SQLAlchemy engine is a structure
holding its `ischema_names` registry (an association list modelling the
dict) and the set of type ids installed on the connected database;
exceptions become `Except` with a Python-error type.  The single I/O
operation (`_get_type_ids_on_database`) is modelled by reading the
engine's installed ids while incrementing an explicit query counter, so
that claims about the number of issued queries are statable.
-/

namespace MathesarDb

/-- The built-in Postgres type identities supported by the repository,
in source order (`PostgresType` enum members). -/
inductive PostgresType where
  | _ARRAY
  | BIGINT
  | BIT_VARYING
  | BIT
  | BOOLEAN
  | BYTEA
  | CHAR
  | CHARACTER_VARYING
  | CHARACTER
  | CIDR
  | DATE
  | DATERANGE
  | DOUBLE_PRECISION
  | FLOAT
  | HSTORE
  | INET
  | INT4RANGE
  | INT8RANGE
  | INTEGER
  | INTERVAL
  | JSON
  | JSONB
  | MACADDR
  | MONEY
  | NAME
  | NUMERIC
  | NUMRANGE
  | OID
  | REAL
  | REGCLASS
  | SMALLINT
  | TEXT
  | TIME
  | TIME_WITH_TIME_ZONE
  | TIME_WITHOUT_TIME_ZONE
  | TIMESTAMP
  | TIMESTAMP_WITH_TIME_ZONE
  | TIMESTAMP_WITHOUT_TIME_ZONE
  | TSRANGE
  | TSTZRANGE
  | TSVECTOR
  | UUID
  deriving DecidableEq, Repr

/-- The enum value (database type id string) of each built-in identity. -/
def PostgresType.value : PostgresType → String
  | ._ARRAY => "_array"
  | .BIGINT => "bigint"
  | .BIT_VARYING => "bit varying"
  | .BIT => "bit"
  | .BOOLEAN => "boolean"
  | .BYTEA => "bytea"
  | .CHAR => "\"char\""
  | .CHARACTER_VARYING => "character varying"
  | .CHARACTER => "character"
  | .CIDR => "cidr"
  | .DATE => "date"
  | .DATERANGE => "daterange"
  | .DOUBLE_PRECISION => "double precision"
  | .FLOAT => "float"
  | .HSTORE => "hstore"
  | .INET => "inet"
  | .INT4RANGE => "int4range"
  | .INT8RANGE => "int8range"
  | .INTEGER => "integer"
  | .INTERVAL => "interval"
  | .JSON => "json"
  | .JSONB => "jsonb"
  | .MACADDR => "macaddr"
  | .MONEY => "money"
  | .NAME => "name"
  | .NUMERIC => "numeric"
  | .NUMRANGE => "numrange"
  | .OID => "oid"
  | .REAL => "real"
  | .REGCLASS => "regclass"
  | .SMALLINT => "smallint"
  | .TEXT => "text"
  | .TIME => "time"
  | .TIME_WITH_TIME_ZONE => "time with time zone"
  | .TIME_WITHOUT_TIME_ZONE => "time without time zone"
  | .TIMESTAMP => "timestamp"
  | .TIMESTAMP_WITH_TIME_ZONE => "timestamp with time zone"
  | .TIMESTAMP_WITHOUT_TIME_ZONE => "timestamp without time zone"
  | .TSRANGE => "tsrange"
  | .TSTZRANGE => "tstzrange"
  | .TSVECTOR => "tsvector"
  | .UUID => "uuid"

/-- Modelled from the spec: `constants.MATHESAR_PREFIX` lives in
`db/constants`, which is not under src; per the spec the fixed schema
qualifier "Should usually equal `mathesar_types`", so the application
prefix is the string making `SCHEMA = "mathesar_types"`. -/
def mathesarPfx : String := "mathesar_"

/-- `SCHEMA = f"{constants.MATHESAR_PREFIX}types"`. -/
def SCHEMA : String := mathesarPfx ++ "types"

/-- Character legal in an unquoted lowercase PostgreSQL identifier. -/
def isLegalIdentChar (c : Char) : Bool :=
  c.isLower || c.isDigit || c = '_'

/-- Modelled from the spec: the engine library's identifier preparer
(`preparer.quote_schema`) is an external collaborator not under src.
Per the spec's quoting convention, a name consisting of lowercase
letters, digits and underscores, not starting with a digit and
non-empty, is left unquoted; anything else is wrapped in double quotes
with embedded double quotes doubled. -/
def requiresQuoting (s : String) : Bool :=
  match s.data with
  | [] => true
  | c :: cs => c.isDigit || !((c :: cs).all isLegalIdentChar)

/-- Modelled from the spec: `preparer.quote_schema`, see
`requiresQuoting`. -/
def quote_schema (s : String) : String :=
  if requiresQuoting s then
    "\"" ++ (s.replace "\"" "\"\"") ++ "\""
  else
    s

/-- `_ma_type_qualifier_prefix = preparer.quote_schema(SCHEMA)`
(renamed: should usually equal `mathesar_types`). -/
def _ma_type_qualifier : String := quote_schema SCHEMA

/-- `get_qualified_name(unqualified_name)`: joins the quoted schema
qualifier and the name with a dot. -/
def get_qualified_name (unqualified_name : String) : String :=
  _ma_type_qualifier ++ "." ++ unqualified_name

/-- The custom Mathesar DB type identities (`MathesarCustomType` enum
members). -/
inductive MathesarCustomType where
  | EMAIL
  | MATHESAR_MONEY
  | MULTICURRENCY_MONEY
  | URI
  deriving DecidableEq, Repr

/-- The unqualified id each `MathesarCustomType` member is declared
with, before `__new__` qualifies it. -/
def MathesarCustomType.unqualifiedId : MathesarCustomType → String
  | .EMAIL => "email"
  | .MATHESAR_MONEY => "mathesar_money"
  | .MULTICURRENCY_MONEY => "multicurrency_money"
  | .URI => "uri"

/-- The enum value of a custom identity: `MathesarCustomType.__new__`
prefixes the qualifier, so `email` becomes `mathesar_types.email`. -/
def MathesarCustomType.value (t : MathesarCustomType) : String :=
  get_qualified_name t.unqualifiedId

/-- A database type identity: a member of either enum (`DatabaseType`
is the common base class of `PostgresType` and `MathesarCustomType`). -/
inductive DatabaseType where
  | pg : PostgresType → DatabaseType
  | custom : MathesarCustomType → DatabaseType
  deriving DecidableEq, Repr

/-- The enum value of a database type identity. -/
def DatabaseType.value : DatabaseType → String
  | .pg p => p.value
  | .custom c => c.value

/-- `DatabaseType.id`: the database type id is the enum value. -/
def DatabaseType.id (t : DatabaseType) : String := t.value

/-- `_non_canonical_alias_db_types`. -/
def _non_canonical_alias_db_types : List DatabaseType :=
  [.pg .FLOAT, .pg .TIME, .pg .TIMESTAMP]

/-- `_inconsistent_db_types`: the aliases together with the additional
identities the source lists (NAME, CHAR, BIT_VARYING). -/
def _inconsistent_db_types : List DatabaseType :=
  _non_canonical_alias_db_types ++ [.pg .NAME, .pg .CHAR, .pg .BIT_VARYING]

/-- `_sa_only_db_types`. -/
def _sa_only_db_types : List DatabaseType :=
  [.pg ._ARRAY]

/-- `_optional_db_types`. -/
def _optional_db_types : List DatabaseType :=
  [.pg .HSTORE]

/-- `DatabaseType.is_alias`. -/
def DatabaseType.is_alias (t : DatabaseType) : Bool :=
  decide (t ∈ _non_canonical_alias_db_types)

/-- `DatabaseType.is_sa_only`. -/
def DatabaseType.is_sa_only (t : DatabaseType) : Bool :=
  decide (t ∈ _sa_only_db_types)

/-- `DatabaseType.is_optional`. -/
def DatabaseType.is_optional (t : DatabaseType) : Bool :=
  decide (t ∈ _optional_db_types)

/-- `DatabaseType.is_inconsistent`. -/
def DatabaseType.is_inconsistent (t : DatabaseType) : Bool :=
  decide (t ∈ _inconsistent_db_types)

/-- `DatabaseType.is_ignored`: membership in `_inconsistent_db_types`. -/
def DatabaseType.is_ignored (t : DatabaseType) : Bool :=
  decide (t ∈ _inconsistent_db_types)

/-- `DatabaseType.is_reflection_supported`. -/
def DatabaseType.is_reflection_supported (t : DatabaseType) : Bool :=
  !t.is_inconsistent

/-- `DatabaseType.is_application_supported`: the source computes
`not self.is_inconsistent and not _sa_only_db_types`; the second
conjunct is Python truthiness of the whole set, i.e. the set being
empty, not a membership test on `self`. -/
def DatabaseType.is_application_supported (t : DatabaseType) : Bool :=
  !t.is_inconsistent && _sa_only_db_types.isEmpty

/-- A native SQLAlchemy type class, as far as this layer observes it:
an equality-comparable value with a compiled SQL-text rendering and a
flag recording whether its constructor accepts keyword type options
(a class whose constructor takes no arguments raises `TypeError` when
called with options). -/
structure SAClass where
  sql : String
  acceptsOptions : Bool
  deriving DecidableEq, Repr

/-- An instance of a native type class. -/
structure SAInstance where
  cls : SAClass
  deriving DecidableEq, Repr

/-- The compiled SQL text of a native type instance under the engine's
dialect. -/
def SAInstance.compile (i : SAInstance) : String := i.cls.sql

/-- A Python exception as raised by this module: either a `TypeError`
from constructing a native class with the wrong arity, or a generic
`Exception` carrying its message. -/
inductive PyErr where
  | typeError : PyErr
  | exn : String → PyErr
  deriving DecidableEq, Repr

/-- Message of the exception raised when `sa_type` is not a class
(the spec's ContractViolation). -/
def programmingErrorMsg : String :=
  "Programming error: sa_type parameter must be a class, not an instance."

/-- Message of the exception raised when a class cannot be mapped to a
`DatabaseType` (the spec's NotSupported). -/
def unmappedClassMsg : String :=
  "We don't know how to map this type class to a DatabaseType Enum."

/-- Constructing a native class: `sa_class(**type_options)`.  Raises
`TypeError` when options are passed to a class whose constructor does
not accept them (construction-time arity mismatch); otherwise yields an
instance. -/
def SAClass.instantiate (c : SAClass) (type_options : List (String × String)) :
    Except PyErr SAInstance :=
  if type_options.isEmpty || c.acceptsOptions then
    .ok ⟨c⟩
  else
    .error .typeError

/-- The external engine, as far as this layer observes it: the
dialect's `ischema_names` registry (dict from native id to native
class, modelled as an association list) and the set of type ids
installed on the connected database (read by the one introspection
query). -/
structure Engine where
  ischema_names : List (String × SAClass)
  installed_type_ids : List String

/-- `_get_type_ids_on_database(engine)`: the single I/O operation,
issuing one introspection query.  Modelled with an explicit query
counter so the number of issued queries is observable. -/
def _get_type_ids_on_database (e : Engine) (queries : Nat) :
    List String × Nat :=
  (e.installed_type_ids, queries + 1)

/-- `DatabaseType.get_sa_class(engine)`: None when the type is ignored,
else `engine.dialect.ischema_names.get(self.id)`. -/
def DatabaseType.get_sa_class (t : DatabaseType) (e : Engine) : Option SAClass :=
  if t.is_ignored then
    none
  else
    (e.ischema_names.find? (fun p => p.1 == t.id)).map (·.2)

/-- `DatabaseType.is_available(engine, type_ids_on_database=None)`:
fetches the installed ids when no snapshot is supplied, then tests
membership of `self.id`.  Returns the answer with the updated query
count. -/
def DatabaseType.is_available (t : DatabaseType) (e : Engine)
    (type_ids_on_database : Option (List String)) (queries : Nat) :
    Bool × Nat :=
  match type_ids_on_database with
  | none =>
      let (ids, queries2) := _get_type_ids_on_database e queries
      (decide (t.id ∈ ids), queries2)
  | some ids => (decide (t.id ∈ ids), queries)

/-- `DatabaseType.get_sa_instance_compiled(engine, type_options={})`:
when a native class exists it is instantiated with the given options
and the instance compiled; a `TypeError` from the instantiation
propagates.  When no native class exists the result is None. -/
def DatabaseType.get_sa_instance_compiled (t : DatabaseType) (e : Engine)
    (type_options : List (String × String)) :
    Except PyErr (Option String) :=
  match t.get_sa_class e with
  | none => .ok none
  | some sa_class => do
      let instance_ ← sa_class.instantiate type_options
      pure (some instance_.compile)

/-- All members of the `PostgresType` enum, in declaration order. -/
def allPostgresTypes : List PostgresType :=
  [._ARRAY, .BIGINT, .BIT_VARYING, .BIT, .BOOLEAN, .BYTEA, .CHAR,
   .CHARACTER_VARYING, .CHARACTER, .CIDR, .DATE, .DATERANGE,
   .DOUBLE_PRECISION, .FLOAT, .HSTORE, .INET, .INT4RANGE, .INT8RANGE,
   .INTEGER, .INTERVAL, .JSON, .JSONB, .MACADDR, .MONEY, .NAME,
   .NUMERIC, .NUMRANGE, .OID, .REAL, .REGCLASS, .SMALLINT, .TEXT,
   .TIME, .TIME_WITH_TIME_ZONE, .TIME_WITHOUT_TIME_ZONE, .TIMESTAMP,
   .TIMESTAMP_WITH_TIME_ZONE, .TIMESTAMP_WITHOUT_TIME_ZONE, .TSRANGE,
   .TSTZRANGE, .TSVECTOR, .UUID]

/-- All members of the `MathesarCustomType` enum, in declaration
order. -/
def allMathesarCustomTypes : List MathesarCustomType :=
  [.EMAIL, .MATHESAR_MONEY, .MULTICURRENCY_MONEY, .URI]

/-- `_known_vanilla_db_types`. -/
def _known_vanilla_db_types : List DatabaseType :=
  allPostgresTypes.map DatabaseType.pg

/-- `_known_custom_db_types`. -/
def _known_custom_db_types : List DatabaseType :=
  allMathesarCustomTypes.map DatabaseType.custom

/-- `known_db_types`: union of the two catalogs. -/
def known_db_types : List DatabaseType :=
  _known_vanilla_db_types ++ _known_custom_db_types

/-- `PostgresType(db_type_id)`: enum lookup by value, `none` in place
of the `ValueError` the Python enum raises. -/
def postgresTypeFromId (db_type_id : String) : Option PostgresType :=
  allPostgresTypes.find? (fun t => t.value == db_type_id)

/-- `MathesarCustomType(db_type_id)`: enum lookup by value, `none` in
place of the `ValueError` the Python enum raises. -/
def mathesarCustomTypeFromId (db_type_id : String) : Option MathesarCustomType :=
  allMathesarCustomTypes.find? (fun t => t.value == db_type_id)

/-- `get_db_type_enum_from_id(db_type_id)`: tries `PostgresType`
first, then `MathesarCustomType`, and returns None when neither
matches. -/
def get_db_type_enum_from_id (db_type_id : String) : Option DatabaseType :=
  match postgresTypeFromId db_type_id with
  | some t => some (.pg t)
  | none =>
      match mathesarCustomTypeFromId db_type_id with
      | some t => some (.custom t)
      | none => none

/-- `get_available_known_db_types(engine)`: fetches the installed ids
once, then filters `known_db_types` reusing the snapshot. -/
def get_available_known_db_types (e : Engine) (queries : Nat) :
    List DatabaseType × Nat :=
  let (type_ids_on_database, queries2) := _get_type_ids_on_database e queries
  (known_db_types.filter
     (fun db_type => (db_type.is_available e (some type_ids_on_database) queries2).1),
   queries2)

/-- The argument of `get_db_type_enum_from_class`: a native class or a
native instance (Python's `inspect.isclass` distinguishes them). -/
inductive SAArg where
  | cls : SAClass → SAArg
  | inst : SAInstance → SAArg
  deriving DecidableEq, Repr

/-- `_get_sa_type_class_id_from_ischema_names(sa_type_class1, engine)`:
scans the registry for the first entry whose class equals the given
one, yielding its native id; None when no entry matches. -/
def _get_sa_type_class_id_from_ischema_names (sa_type_class1 : SAClass)
    (e : Engine) : Option String :=
  (e.ischema_names.find? (fun p => p.2 == sa_type_class1)).map (·.1)

/-- `_sa_type_class_to_db_type_id(sa_type_class, engine)`. -/
def _sa_type_class_to_db_type_id (sa_type_class : SAClass) (e : Engine) :
    Option String :=
  _get_sa_type_class_id_from_ischema_names sa_type_class e

/-- `get_db_type_enum_from_class(sa_type, engine)`: raises on a
non-class argument before consulting the registry; otherwise resolves
the scanned id, raising when no entry matches (including Python's
falsy empty-string id) or the id does not resolve. -/
def get_db_type_enum_from_class (sa_type : SAArg) (e : Engine) :
    Except PyErr DatabaseType :=
  match sa_type with
  | .inst _ => .error (.exn programmingErrorMsg)
  | .cls c =>
      match _sa_type_class_to_db_type_id c e with
      | some db_type_id =>
          if db_type_id ≠ "" then
            match get_db_type_enum_from_id db_type_id with
            | some db_type => .ok db_type
            | none => .error (.exn unmappedClassMsg)
          else
            .error (.exn unmappedClassMsg)
      | none => .error (.exn unmappedClassMsg)

/-! Concrete engines and native classes used to exercise the
definitions on explicit inputs. -/

/-- A native class accepting constructor options, registered under
`boolean`. -/
def booleanClass : SAClass := ⟨"BOOLEAN", true⟩

/-- An engine whose registry holds a single entry for `boolean` and
whose database has no installed types. -/
def engineW : Engine := ⟨[("boolean", booleanClass)], []⟩

/-- A native class whose constructor rejects keyword options. -/
def intervalClass : SAClass := ⟨"INTERVAL", false⟩

/-- An engine whose registry maps `interval` to a class that rejects
constructor options. -/
def engineC3 : Engine := ⟨[("interval", intervalClass)], []⟩

/-- A native class registered under two distinct identifiers of the
engine in `engineC4`. -/
def tsClass : SAClass := ⟨"TIMESTAMP", true⟩

/-- An engine registering the same native class under both timestamp
identifiers, as the Postgres dialect does. -/
def engineC4 : Engine :=
  ⟨[("timestamp with time zone", tsClass),
    ("timestamp without time zone", tsClass)], []⟩

/-- A native class absent from every registry used here. -/
def xmlClass : SAClass := ⟨"XML", true⟩

/-- A native class registered under an identifier that no catalog
entry carries. -/
def oddClass : SAClass := ⟨"ODD", true⟩

/-- An engine whose registry maps an unknown identifier to
`oddClass`. -/
def engineOdd : Engine := ⟨[("weird_type", oddClass)], []⟩

/-- An engine whose registry carries an entry for the ignored alias
identity `float`. -/
def engineFloat : Engine := ⟨[("float", ⟨"FLOAT", true⟩)], []⟩

/-! Helper lemmas shared by the claim theorems. -/

/-- Every `PostgresType` member is listed in `allPostgresTypes`. -/
theorem mem_allPostgresTypes (p : PostgresType) : p ∈ allPostgresTypes := by
  cases p <;> decide

/-- Every `MathesarCustomType` member is listed in
`allMathesarCustomTypes`. -/
theorem mem_allMathesarCustomTypes (c : MathesarCustomType) :
    c ∈ allMathesarCustomTypes := by
  cases c <;> decide

/-- Resolving any identity's own id yields that identity back. -/
theorem get_db_type_enum_from_id_own (t : DatabaseType) :
    get_db_type_enum_from_id t.id = some t := by
  cases t with
  | pg p => cases p <;> rfl
  | custom c => cases c <;> rfl

/-- No identity has the empty id. -/
theorem id_ne_empty (t : DatabaseType) : t.id ≠ "" := by
  cases t with
  | pg p => cases p <;> decide
  | custom c => cases c <;> decide

/-- Looking up a key present in an association list with pairwise
distinct keys finds exactly that entry. -/
theorem find?_key_unique {l : List (String × SAClass)} {k : String} {v : SAClass}
    (hmem : (k, v) ∈ l) (hnd : (l.map Prod.fst).Nodup) :
    l.find? (fun p => p.1 == k) = some (k, v) := by
  induction l with
  | nil => cases hmem
  | cons p rest ih =>
    rw [List.map_cons, List.nodup_cons] at hnd
    rcases List.mem_cons.mp hmem with hhead | htail
    · subst hhead
      simp [List.find?_cons]
    · have hne : p.1 ≠ k := by
        intro hk
        apply hnd.1
        rw [hk]
        exact List.mem_map_of_mem Prod.fst htail
      rw [List.find?_cons]
      have hb : (p.1 == k) = false := by simp [hne]
      rw [hb]
      exact ih htail hnd.2

/-! The claim theorems. -/

/-- C1: evaluation of the code at the claim's inputs.  BOOLEAN is
neither inconsistent nor engine-only, yet `is_application_supported`
is false for it — indeed for every identity — because the source tests
the truthiness of the whole `_sa_only_db_types` set instead of the
identity's membership in it.  The claim says the predicate holds
exactly for consistent, non-engine-only identities. -/
theorem C1_application_supported_always_false :
    (DatabaseType.pg .BOOLEAN).is_inconsistent = false ∧
    (DatabaseType.pg .BOOLEAN).is_sa_only = false ∧
    ∀ t : DatabaseType, t.is_application_supported = false := by
  refine ⟨by decide, by decide, fun t => ?_⟩
  unfold DatabaseType.is_application_supported
  cases h : t.is_inconsistent <;> simp [h, _sa_only_db_types]

/-- C2: evaluation of the code at the claim's inputs.  Every alias is
inconsistent, but the inconsistent set holds three non-alias
identities (NAME, CHAR and BIT_VARYING), not two as the claim and the
`is_ignored` docstring ("It also ignores NAME and CHAR") state. -/
theorem C2_inconsistent_has_three_non_alias :
    _non_canonical_alias_db_types.all DatabaseType.is_inconsistent = true ∧
    _inconsistent_db_types.filter (fun t => !t.is_alias) =
      [.pg .NAME, .pg .CHAR, .pg .BIT_VARYING] := by
  exact ⟨by decide, by decide⟩

/-- C3 counterexample: an engine whose registry maps `interval` to a
class rejecting constructor options.  The native class exists and
zero-argument instantiation would succeed, yet
`get_sa_instance_compiled` with non-empty options propagates the
construction-time `TypeError` instead of falling back and returning
compiled SQL text. -/
theorem C3_counterexample_no_fallback :
    (DatabaseType.pg .INTERVAL).get_sa_class engineC3 = some intervalClass ∧
    intervalClass.instantiate [] = .ok ⟨intervalClass⟩ ∧
    (DatabaseType.pg .INTERVAL).get_sa_instance_compiled engineC3
        [("precision", "6")] = .error .typeError :=
  ⟨rfl, rfl, rfl⟩

/-- C3 (amended): `get_sa_instance_compiled`, for every identity whose
native class exists, attempts instantiation of the native class with
the given options; its result is exactly that instantiation's outcome
with the instance compiled — a construction-time `TypeError`
propagates to the caller, with no zero-argument fallback. -/
theorem C3_compiled_is_instantiation_outcome
    (t : DatabaseType) (e : Engine) (type_options : List (String × String))
    (c : SAClass) (h : t.get_sa_class e = some c) :
    t.get_sa_instance_compiled e type_options =
      (c.instantiate type_options).map (fun i => some i.compile) := by
  unfold DatabaseType.get_sa_instance_compiled
  rw [h]
  cases hi : c.instantiate type_options <;>
    simp [hi, Except.map, bind, Except.bind, pure, Except.pure]

/-- C3 witness: the theorem applied at BOOLEAN on a one-entry
registry with empty options. -/
theorem C3_compiled_witness :
    (DatabaseType.pg .BOOLEAN).get_sa_class engineW = some booleanClass ∧
    (DatabaseType.pg .BOOLEAN).get_sa_instance_compiled engineW [] =
      (booleanClass.instantiate []).map (fun i => some i.compile) :=
  ⟨rfl, C3_compiled_is_instantiation_outcome (.pg .BOOLEAN) engineW [] booleanClass rfl⟩

/-- C4 counterexample: the engine registers the same class under both
timestamp identifiers (as the Postgres dialect does); the forward
lookup for `timestamp without time zone` yields the class, but the
reverse lookup returns `timestamp with time zone`'s identity, so the
round trip fails. -/
theorem C4_counterexample_shared_class :
    (DatabaseType.pg .TIMESTAMP_WITHOUT_TIME_ZONE).get_sa_class engineC4 =
      some tsClass ∧
    get_db_type_enum_from_class (.cls tsClass) engineC4 =
      .ok (.pg .TIMESTAMP_WITH_TIME_ZONE) ∧
    DatabaseType.pg .TIMESTAMP_WITH_TIME_ZONE ≠
      DatabaseType.pg .TIMESTAMP_WITHOUT_TIME_ZONE :=
  ⟨rfl, rfl, by decide⟩

/-- C4 (amended): the round trip holds for every identity whose id is
the first registry identifier mapped to its native class: if
`get_sa_class` returns `c` and the registry scan for `c` yields the
identity's own id, then `get_db_type_enum_from_class` returns exactly
that identity.  When another identifier maps to the same class
earlier in the registry, the reverse lookup returns that identifier's
identity instead (see the counterexample). -/
theorem C4_round_trip_first_match (t : DatabaseType) (e : Engine) (c : SAClass)
    (h1 : t.get_sa_class e = some c)
    (h2 : _get_sa_type_class_id_from_ischema_names c e = some t.id) :
    get_db_type_enum_from_class (.cls c) e = .ok t := by
  simp only [get_db_type_enum_from_class, _sa_type_class_to_db_type_id]
  rw [h2]
  simp [id_ne_empty t, get_db_type_enum_from_id_own t]

/-- C4 witness: the round trip at BOOLEAN on a one-entry registry. -/
theorem C4_round_trip_witness :
    (DatabaseType.pg .BOOLEAN).get_sa_class engineW = some booleanClass ∧
    _get_sa_type_class_id_from_ischema_names booleanClass engineW =
      some (DatabaseType.pg .BOOLEAN).id ∧
    get_db_type_enum_from_class (.cls booleanClass) engineW =
      .ok (.pg .BOOLEAN) :=
  ⟨rfl, rfl, C4_round_trip_first_match (.pg .BOOLEAN) engineW booleanClass rfl rfl⟩

/-- C5: `get_db_type_enum_from_class` never returns an absent result.
An instance argument raises the programming-error exception for every
engine, so before and independently of any registry consultation; a
class matching no registry entry, or one whose matched identifier does
not resolve to a known identity, raises the unmapped-class
exception. -/
theorem C5_reverse_lookup_errors :
    (∀ (i : SAInstance) (e : Engine),
        get_db_type_enum_from_class (.inst i) e =
          .error (.exn programmingErrorMsg)) ∧
    (∀ (c : SAClass) (e : Engine),
        _get_sa_type_class_id_from_ischema_names c e = none →
        get_db_type_enum_from_class (.cls c) e =
          .error (.exn unmappedClassMsg)) ∧
    (∀ (c : SAClass) (e : Engine) (s : String),
        _get_sa_type_class_id_from_ischema_names c e = some s →
        get_db_type_enum_from_id s = none →
        get_db_type_enum_from_class (.cls c) e =
          .error (.exn unmappedClassMsg)) := by
  refine ⟨fun i e => rfl, fun c e h => ?_, fun c e s h1 h2 => ?_⟩
  · simp only [get_db_type_enum_from_class, _sa_type_class_to_db_type_id]
    rw [h]
  · simp only [get_db_type_enum_from_class, _sa_type_class_to_db_type_id]
    rw [h1]
    by_cases hs : s = ""
    · simp [hs]
    · simp [hs, h2]

/-- C5 witness: the theorem applied to a concrete instance, an
unregistered class, and a class registered under an unknown
identifier. -/
theorem C5_reverse_lookup_witness :
    get_db_type_enum_from_class (.inst ⟨booleanClass⟩) engineW =
      .error (.exn programmingErrorMsg) ∧
    (_get_sa_type_class_id_from_ischema_names xmlClass engineW = none ∧
      get_db_type_enum_from_class (.cls xmlClass) engineW =
        .error (.exn unmappedClassMsg)) ∧
    (_get_sa_type_class_id_from_ischema_names oddClass engineOdd =
        some "weird_type" ∧
      get_db_type_enum_from_id "weird_type" = none ∧
      get_db_type_enum_from_class (.cls oddClass) engineOdd =
        .error (.exn unmappedClassMsg)) :=
  ⟨C5_reverse_lookup_errors.1 ⟨booleanClass⟩ engineW,
   ⟨rfl, C5_reverse_lookup_errors.2.1 xmlClass engineW rfl⟩,
   ⟨rfl, rfl, C5_reverse_lookup_errors.2.2 oddClass engineOdd "weird_type" rfl rfl⟩⟩

/-- C6: `get_db_type_enum_from_id` tries the built-in catalog first
(a built-in match wins), falls back to the custom catalog, and when
the identifier matches no known identity it returns None — a total
function, never an exception. -/
theorem C6_resolve_by_id (s : String) :
    (∀ p : PostgresType, postgresTypeFromId s = some p →
        get_db_type_enum_from_id s = some (.pg p)) ∧
    (postgresTypeFromId s = none →
        get_db_type_enum_from_id s =
          (mathesarCustomTypeFromId s).map DatabaseType.custom) ∧
    ((∀ t, t ∈ known_db_types → t.id ≠ s) →
        get_db_type_enum_from_id s = none) := by
  refine ⟨fun p hp => ?_, fun hp => ?_, fun h => ?_⟩
  · simp [get_db_type_enum_from_id, hp]
  · rw [get_db_type_enum_from_id, hp]
    cases mathesarCustomTypeFromId s <;> simp
  · have hp : postgresTypeFromId s = none := by
      rw [postgresTypeFromId, List.find?_eq_none]
      intro p hmem
      have hid : (DatabaseType.pg p).id ≠ s :=
        h _ (List.mem_append_left _ (List.mem_map_of_mem DatabaseType.pg hmem))
      simpa [DatabaseType.id, DatabaseType.value] using hid
    have hc : mathesarCustomTypeFromId s = none := by
      rw [mathesarCustomTypeFromId, List.find?_eq_none]
      intro c hmem
      have hid : (DatabaseType.custom c).id ≠ s :=
        h _ (List.mem_append_right _ (List.mem_map_of_mem DatabaseType.custom hmem))
      simpa [DatabaseType.id, DatabaseType.value] using hid
    rw [get_db_type_enum_from_id, hp, hc]

/-- C6 witness: a built-in id, a qualified custom id and an unknown
id resolved through the theorem. -/
theorem C6_resolve_witness :
    get_db_type_enum_from_id "boolean" = some (.pg .BOOLEAN) ∧
    (postgresTypeFromId "mathesar_types.email" = none ∧
      get_db_type_enum_from_id "mathesar_types.email" =
        some (.custom .EMAIL)) ∧
    get_db_type_enum_from_id "nonexistent_type_xyz" = none :=
  ⟨(C6_resolve_by_id "boolean").1 .BOOLEAN rfl,
   ⟨rfl, ((C6_resolve_by_id "mathesar_types.email").2.1 rfl).trans rfl⟩,
   (C6_resolve_by_id "nonexistent_type_xyz").2.2 (by decide)⟩

/-- C7: `get_sa_class` returns None for every ignored identity on
every engine, including engines whose registry carries the identity's
id; for a non-ignored identity it returns None when no registry entry
carries the id, and the registered class when the registry (whose
keys, as a dict's, are pairwise distinct) holds an entry for the
id. -/
theorem C7_get_sa_class_lookup (t : DatabaseType) (e : Engine) (c : SAClass) :
    (t.is_ignored = true → t.get_sa_class e = none) ∧
    (t.is_ignored = false → (∀ p, p ∈ e.ischema_names → p.1 ≠ t.id) →
        t.get_sa_class e = none) ∧
    (t.is_ignored = false → (t.id, c) ∈ e.ischema_names →
        (e.ischema_names.map Prod.fst).Nodup →
        t.get_sa_class e = some c) := by
  refine ⟨fun h => ?_, fun h habs => ?_, fun h hmem hnd => ?_⟩
  · simp [DatabaseType.get_sa_class, h]
  · rw [DatabaseType.get_sa_class, if_neg (by simp [h])]
    have : e.ischema_names.find? (fun p => p.1 == t.id) = none := by
      rw [List.find?_eq_none]
      intro p hp
      simpa using habs p hp
    rw [this]
    rfl
  · rw [DatabaseType.get_sa_class, if_neg (by simp [h])]
    rw [find?_key_unique hmem hnd]
    rfl

/-- C7 witness: an ignored identity with its id registered, a
non-ignored identity absent from the registry, and a non-ignored
identity present in the registry. -/
theorem C7_get_sa_class_witness :
    ((DatabaseType.pg .FLOAT).is_ignored = true ∧
      (DatabaseType.pg .FLOAT).get_sa_class engineFloat = none) ∧
    ((DatabaseType.pg .NUMERIC).is_ignored = false ∧
      (DatabaseType.pg .NUMERIC).get_sa_class engineW = none) ∧
    ((DatabaseType.pg .BOOLEAN).is_ignored = false ∧
      ("boolean", booleanClass) ∈ engineW.ischema_names ∧
      (DatabaseType.pg .BOOLEAN).get_sa_class engineW = some booleanClass) :=
  ⟨⟨rfl, (C7_get_sa_class_lookup (.pg .FLOAT) engineFloat booleanClass).1 rfl⟩,
   ⟨rfl, (C7_get_sa_class_lookup (.pg .NUMERIC) engineW booleanClass).2.1 rfl
      (by decide)⟩,
   ⟨rfl, by decide,
    (C7_get_sa_class_lookup (.pg .BOOLEAN) engineW booleanClass).2.2 rfl
      (by decide) (by decide)⟩⟩

/-- C8: availability is a pure membership test — with a supplied
snapshot `is_available` issues no query and answers exactly
`id ∈ snapshot` with no classification filtering; without a snapshot
it issues one query against the engine; and
`get_available_known_db_types` issues exactly one query and returns
exactly the known identities whose id is in the fetched snapshot. -/
theorem C8_availability (t : DatabaseType) (e : Engine)
    (snapshot : List String) (queries : Nat) :
    t.is_available e (some snapshot) queries =
      (decide (t.id ∈ snapshot), queries) ∧
    t.is_available e none queries =
      (decide (t.id ∈ e.installed_type_ids), queries + 1) ∧
    (get_available_known_db_types e queries).2 = queries + 1 ∧
    (∀ u : DatabaseType,
        u ∈ (get_available_known_db_types e queries).1 ↔
          u ∈ known_db_types ∧ u.id ∈ e.installed_type_ids) := by
  refine ⟨rfl, rfl, rfl, fun u => ?_⟩
  simp [get_available_known_db_types, _get_type_ids_on_database,
    DatabaseType.is_available, List.mem_filter]

/-- C9: catalog invariant — every known identity has a non-empty id,
ids are pairwise distinct across the union of both catalogs (hence
the catalogs are id-disjoint), no identity is in both catalogs, and
the size of the union is the sum of the catalog sizes. -/
theorem C9_catalog_invariant :
    known_db_types.all (fun t => !(t.id == "")) = true ∧
    (known_db_types.map (fun t => t.id)).Nodup ∧
    known_db_types.Nodup ∧
    _known_vanilla_db_types.all
      (fun t => !(decide (t ∈ _known_custom_db_types))) = true ∧
    known_db_types.length =
      _known_vanilla_db_types.length + _known_custom_db_types.length :=
  ⟨by decide, by decide, by decide, by decide, by decide⟩

/-- C10: for each custom identity the id constructed at definition
time is the qualified `mathesar_types.`-prefixed name; the unqualified
name resolves to nothing, while the qualified id resolves to exactly
that custom identity. -/
theorem C10_only_qualified_id_resolves :
    ∀ c : MathesarCustomType,
      (DatabaseType.custom c).id = "mathesar_types." ++ c.unqualifiedId ∧
      get_db_type_enum_from_id c.unqualifiedId = none ∧
      get_db_type_enum_from_id (DatabaseType.custom c).id =
        some (.custom c) := by
  intro c
  cases c <;> exact ⟨rfl, rfl, rfl⟩

end MathesarDb
